import Mathlib

/-!
Verification of the Mind-mate memory-extraction flow.

Shallow embedding of the repository's memory pipeline:
the Supabase tables (chat_messages, memories, user_activities) become lists of
records, the Supabase query chains (eq / order / limit) become filter, a stable
sort by created_at, and take, and the Python functions from
src/CODE_SNIPPETS.md (get_session_message_count, the /chat memory trigger,
fetch_last_n_messages, fetch_session_memories, trigger_memory_extraction,
extract_all_memories_parallel, the retry loop of the LLM response getter) and
the Node backend's /chat route (src/r3f-virtual-girlfriend-backend/index.js)
become Lean functions.  External effects are made explicit: the LLM is a
function parameter, fallible Supabase writes take a success flag, clock values
are Nat parameters.
-/

namespace MindMate

/-- A row of the chat_messages table (schema per the migration
20251101000000_add_memories_table.sql: processed_into_memory boolean default
false, memory_processed_at timestamptz).  Timestamps are modelled as Nat. -/
structure ChatMessage where
  id : Nat
  session_id : String
  role : String
  content : String
  created_at : Nat
  processed_into_memory : Bool
  memory_processed_at : Option Nat
deriving Repr, DecidableEq

/-- The memory_summary dict built by extract_all_memories_parallel. -/
structure MemorySummary where
  total_procedural : Nat
  total_semantic : Nat
  total_episodic : Nat
  total_memories : Nat
deriving Repr, DecidableEq

/-- A row of the memories table (insert_data in trigger_memory_extraction). -/
structure MemoryRecord where
  user_id : String
  session_id : String
  data_type : String
  procedural_memories : List String
  semantic_memories : List String
  episodic_memories : List String
  memory_summary : MemorySummary
  source_message_ids : List Nat
deriving Repr, DecidableEq

/-- A row of the user_activities table (only the columns the pipeline reads). -/
structure Activity where
  user_id : String
  session_id : String
  content : String
deriving Repr, DecidableEq

/-- The Supabase database state seen by the pipeline. -/
structure DB where
  chat_messages : List ChatMessage
  memories : List MemoryRecord
  user_activities : List Activity
deriving Repr, DecidableEq

/-- Ordering used by the queries' order on created_at with desc equal False. -/
def createdLe (a b : ChatMessage) : Prop :=
  a.created_at ≤ b.created_at

instance : DecidableRel createdLe := fun a b => Nat.decLe a.created_at b.created_at

instance : IsTotal ChatMessage createdLe :=
  ⟨fun a b => Nat.le_total a.created_at b.created_at⟩

instance : IsTrans ChatMessage createdLe :=
  ⟨fun _ _ _ hab hbc => Nat.le_trans hab hbc⟩

/-- Model of the SQL order by created_at ascending: a stable sort. -/
def orderByCreatedAsc (msgs : List ChatMessage) : List ChatMessage :=
  msgs.insertionSort createdLe

/-- Rows of chat_messages matching eq on session_id. -/
def sessionMessages (db : DB) (session_id : String) : List ChatMessage :=
  db.chat_messages.filter (fun m => m.session_id == session_id)

/-- Rows of chat_messages matching eq session_id and eq processed_into_memory
False (the filter used inside trigger_memory_extraction). -/
def unprocessedSessionMessages (db : DB) (session_id : String) : List ChatMessage :=
  db.chat_messages.filter
    (fun m => m.session_id == session_id && m.processed_into_memory == false)

/-- The select inside trigger_memory_extraction: eq session_id, eq
processed_into_memory False, order created_at ascending, limit 20. -/
def fetchUnprocessedWindow (db : DB) (session_id : String) : List ChatMessage :=
  (orderByCreatedAsc (unprocessedSessionMessages db session_id)).take 20

/-- get_session_message_count from main.py: count of chat_messages rows with
the given session_id; returns 0 when the Supabase credentials are missing or
the query errors (credsOk false). -/
def get_session_message_count (credsOk : Bool) (db : DB) (session_id : String) : Nat :=
  if credsOk then (sessionMessages db session_id).length else 0

/-- fetch_last_n_messages from workflow.py: eq session_id, order created_at
ascending, limit (default 15); empty on missing credentials or error. -/
def fetch_last_n_messages (credsOk : Bool) (db : DB) (session_id : String)
    (limit : Nat := 15) : List ChatMessage :=
  if credsOk then (orderByCreatedAsc (sessionMessages db session_id)).take limit else []

/-- The memory-trigger check added to the /chat endpoint in main.py: after the
user message and the AI response are saved, the session message count is taken
and a background extraction thread is started iff the count is positive and
divisible by 20.  db is the post-save database state. -/
def chatMemoryExtractionStarted (credsOk : Bool) (db : DB) (session_id : String) : Bool :=
  let new_message_count := get_session_message_count credsOk db session_id
  decide (new_message_count > 0) && new_message_count % 20 == 0

/-- One element of the chat_history list built in trigger_memory_extraction. -/
structure ChatHistoryItem where
  role : String
  content : String
  timestamp : Nat
deriving Repr, DecidableEq

/-- The memory_input dict handed to extract_all_memories_parallel. -/
structure MemoryInput where
  data_type : String
  user_id : String
  session_id : String
  chat_history : List ChatHistoryItem
  activities : List Activity
deriving Repr, DecidableEq

/-- The UniversalMemorySystem of memory_architecture.py, with its external
pieces (data handler formatting, the three per-category LLM extraction calls)
as function parameters.  Each extractor takes the formatted data and the data
type, as in the source. -/
structure MemorySystem where
  formatData : MemoryInput → String
  extract_procedural_memory : String → String → List String
  extract_semantic_memory : String → String → List String
  extract_episodic_memory : String → String → List String

/-- The memories dict of the output of extract_all_memories_parallel. -/
structure MemoriesByType where
  procedural : List String
  semantic : List String
  episodic : List String
deriving Repr, DecidableEq

/-- The output dict of extract_all_memories_parallel. -/
structure ExtractionOutput where
  data_type : String
  user_id : String
  session_id : String
  memory_summary : MemorySummary
  memories : MemoriesByType
deriving Repr, DecidableEq

/-- The labels of the three futures submitted by extract_all_memories_parallel
(the future_to_type mapping). -/
def extractionTaskTypes : List String :=
  ["procedural", "semantic", "episodic"]

/-- The max_workers argument of the ThreadPoolExecutor used by
extract_all_memories_parallel. -/
def extractionMaxWorkers : Nat := 3

/-- extract_all_memories_parallel from memory_architecture.py: formats the
input, runs the three per-category extraction calls (submitted to a thread
pool in the source; the as_completed loop assigns each result to the list of
its own category, so the outcome equals the sequential composition), and
assembles the output dict with its memory_summary. -/
def extract_all_memories_parallel (sys : MemorySystem) (input : MemoryInput) :
    ExtractionOutput :=
  let data_type := input.data_type
  let formatted_data := sys.formatData input
  let procedural_memories := sys.extract_procedural_memory formatted_data data_type
  let semantic_memories := sys.extract_semantic_memory formatted_data data_type
  let episodic_memories := sys.extract_episodic_memory formatted_data data_type
  { data_type := data_type
    user_id := input.user_id
    session_id := input.session_id
    memory_summary :=
      { total_procedural := procedural_memories.length
        total_semantic := semantic_memories.length
        total_episodic := episodic_memories.length
        total_memories :=
          procedural_memories.length + semantic_memories.length +
            episodic_memories.length }
    memories :=
      { procedural := procedural_memories
        semantic := semantic_memories
        episodic := episodic_memories } }

/-- The state dict passed to trigger_memory_extraction by the /chat endpoint. -/
structure TriggerState where
  user_id : String
  session_id : String
  message_count : Nat
deriving Repr, DecidableEq

/-- The per-message update applied by the marking loop of
trigger_memory_extraction: set processed_into_memory True and stamp
memory_processed_at. -/
def markMsg (now : Nat) (m : ChatMessage) : ChatMessage :=
  { m with processed_into_memory := true, memory_processed_at := some now }

/-- One update statement of the marking loop: update the row whose id matches
msg_id. -/
def setProcessed (now : Nat) (msg_id : Nat) (msgs : List ChatMessage) : List ChatMessage :=
  msgs.map (fun m => if m.id == msg_id then markMsg now m else m)

/-- The marking loop of trigger_memory_extraction: one update per fetched
message id, in order. -/
def markProcessed (now : Nat) (ids : List Nat) (msgs : List ChatMessage) : List ChatMessage :=
  ids.foldl (fun ms i => setProcessed now i ms) msgs

/-- The memory_input dict built by trigger_memory_extraction from the fetched
messages and the user_activities rows of the user and session. -/
def extractionInput (db : DB) (st : TriggerState) (fetched : List ChatMessage) : MemoryInput :=
  { data_type := "chat"
    user_id := st.user_id
    session_id := st.session_id
    chat_history := fetched.map (fun m => ⟨m.role, m.content, m.created_at⟩)
    activities := db.user_activities.filter
      (fun a => a.user_id == st.user_id && a.session_id == st.session_id) }

/-- The insert_data dict built by trigger_memory_extraction from the parallel
extraction output and the fetched message ids. -/
def extractionRecord (sys : MemorySystem) (db : DB) (st : TriggerState)
    (fetched : List ChatMessage) : MemoryRecord :=
  let memories_output := extract_all_memories_parallel sys (extractionInput db st fetched)
  { user_id := st.user_id
    session_id := st.session_id
    data_type := "chat"
    procedural_memories := memories_output.memories.procedural
    semantic_memories := memories_output.memories.semantic
    episodic_memories := memories_output.memories.episodic
    memory_summary := memories_output.memory_summary
    source_message_ids := fetched.map (fun m => m.id) }

/-- The write phase of trigger_memory_extraction once the extraction output is
available: insert the memories row, then mark each fetched message processed. -/
def commitExtraction (sys : MemorySystem) (now : Nat) (st : TriggerState)
    (fetched : List ChatMessage) (db : DB) : DB :=
  let message_ids := fetched.map (fun m => m.id)
  { chat_messages := markProcessed now message_ids db.chat_messages
    memories := db.memories ++ [extractionRecord sys db st fetched]
    user_activities := db.user_activities }

/-- trigger_memory_extraction from workflow.py.  Returns the database after the
run; a raised exception is an error value and, since the failure happens at
the memories insert, before any chat_messages update, the database is then
unchanged.  credsOk false (missing Supabase credentials) and a missing memory
system both log and return without touching the database; an empty unprocessed
window likewise returns early. -/
def trigger_memory_extraction (sys : Option MemorySystem) (credsOk insertOk : Bool)
    (now : Nat) (st : TriggerState) (db : DB) : Except String DB :=
  if !credsOk then Except.ok db
  else
    let fetched := fetchUnprocessedWindow db st.session_id
    if fetched.isEmpty then Except.ok db
    else
      match sys with
      | none => Except.ok db
      | some sys =>
          if insertOk then Except.ok (commitExtraction sys now st fetched db)
          else Except.error "Error in memory extraction: memories insert failed"

/-- The parameters of one background extraction run. -/
structure ExtractionRun where
  sys : Option MemorySystem
  credsOk : Bool
  insertOk : Bool
  now : Nat
  st : TriggerState

/-- The database after a background run finishes: the run's result when it
returns, the unchanged database when it raises (the failure precedes every
write). -/
def applyRun (db : DB) (r : ExtractionRun) : DB :=
  match trigger_memory_extraction r.sys r.credsOk r.insertOk r.now r.st db with
  | Except.ok db2 => db2
  | Except.error _ => db

/-- A sequence of background extraction runs executed one after another. -/
def applyRuns (db : DB) (rs : List ExtractionRun) : DB :=
  rs.foldl applyRun db

/-- fetch_session_memories from workflow.py: select the memories rows of the
session and return the three category lists of the last row of the result
(response.data[-1]), or empty lists when there is none or the credentials are
missing. -/
def fetch_session_memories (credsOk : Bool) (db : DB)
    (user_id session_id : String) : MemoriesByType :=
  if !credsOk then ⟨[], [], []⟩
  else
    match (db.memories.filter (fun r => r.session_id == session_id)).getLast? with
    | some latest =>
        ⟨latest.procedural_memories, latest.semantic_memories, latest.episodic_memories⟩
    | none => ⟨[], [], []⟩

/-- Modelled from the spec: the first-stage (psychological analyst) prompt
builder of workflow.py is not under src/ — only the snippets that add the
memory methods are.  Per the spec, on every chat turn the workflow folds the
memories returned by fetch_session_memories into the prompt context of the
first-stage LLM call, grouped by the three categories. -/
def analyst_prompt_context (credsOk : Bool) (db : DB)
    (user_id session_id : String) : MemoriesByType :=
  fetch_session_memories credsOk db user_id session_id

end MindMate

namespace MindMate

/-! Interleaving model for two concurrent background extraction runs of the
same session.  Each run executes the same code as trigger_memory_extraction,
split at its natural read/write boundary: a fetch step (the unprocessed-window
select) and a commit step (commitExtraction).  The schedule decides the
interleaving. -/

/-- Shared database plus the local fetched window of each of the two runs. -/
structure ConcState where
  db : DB
  fetched1 : Option (List ChatMessage)
  fetched2 : Option (List ChatMessage)

/-- Events of the two-run interleaving. -/
inductive ConcEvent where
  | fetch1
  | fetch2
  | commit1
  | commit2
deriving Repr, DecidableEq

/-- One step of the interleaved execution.  A commit before the fetch of the
same run, or on an empty window, does nothing (the source returns early on an
empty window). -/
def concStep (sys : MemorySystem) (now : Nat) (st : TriggerState)
    (s : ConcState) : ConcEvent → ConcState
  | ConcEvent.fetch1 => { s with fetched1 := some (fetchUnprocessedWindow s.db st.session_id) }
  | ConcEvent.fetch2 => { s with fetched2 := some (fetchUnprocessedWindow s.db st.session_id) }
  | ConcEvent.commit1 =>
      match s.fetched1 with
      | some fetched =>
          if fetched.isEmpty then s
          else { s with db := commitExtraction sys now st fetched s.db }
      | none => s
  | ConcEvent.commit2 =>
      match s.fetched2 with
      | some fetched =>
          if fetched.isEmpty then s
          else { s with db := commitExtraction sys now st fetched s.db }
      | none => s

/-- Run a whole schedule of interleaved events. -/
def runSchedule (sys : MemorySystem) (now : Nat) (st : TriggerState)
    (s : ConcState) (events : List ConcEvent) : ConcState :=
  events.foldl (concStep sys now st) s

end MindMate

namespace MindMate

/-! Retry loop of the LLM response getter in memory_architecture.py.  The
external LLM plus JSON parsing is a behaviour function: for each attempt index
it yields the outcome the source branches on. -/

/-- Outcome of one generate_content call as classified by the source: a None
response, a response without text or content attribute, a JSONDecodeError, a
successful parse that is not a list, a successfully parsed list, or any other
exception. -/
inductive LLMAttempt where
  | noneResponse
  | noTextAttr
  | parseError
  | notAList
  | parsedList (items : List String)
  | exn
deriving Repr, DecidableEq

/-- Whether the source treats the outcome as a failure (it logs and retries on
it); everything except a successfully parsed list. -/
def LLMAttempt.isFailure : LLMAttempt → Bool
  | LLMAttempt.parsedList _ => false
  | _ => true

instance {ε α : Type} [DecidableEq ε] [DecidableEq α] : DecidableEq (Except ε α) :=
  fun a b =>
    match a, b with
    | Except.ok x, Except.ok y =>
        match decEq x y with
        | isTrue h => isTrue (h ▸ rfl)
        | isFalse h => isFalse (fun hc => h (Except.ok.inj hc))
    | Except.error x, Except.error y =>
        match decEq x y with
        | isTrue h => isTrue (h ▸ rfl)
        | isFalse h => isFalse (fun hc => h (Except.error.inj hc))
    | Except.ok _, Except.error _ => isFalse (fun hc => Except.noConfusion hc)
    | Except.error _, Except.ok _ => isFalse (fun hc => Except.noConfusion hc)

/-- Result of the whole retry loop: the returned list or the raised error, plus
the trace of sleep durations (seconds) executed between attempts. -/
structure LLMCallResult where
  result : Except String (List String)
  sleeps : List Nat
deriving Repr, DecidableEq

/-- The for-loop of the retry logic, one iteration per unit of fuel; attempt is
the loop index, sleeps the trace so far.  Branches mirror the source: a None
response and a missing text attribute retry while attempt is below
max_retries - 1 and raise on the last attempt; a parsed non-list retries the
same way but returns an empty list on the last attempt; a JSONDecodeError and
any other exception raise when attempt equals max_retries - 1 and otherwise
sleep 2 ^ attempt and retry; a parsed list returns at once.  Exhausted fuel is
the raise after the loop. -/
def llmRetryLoop (behavior : Nat → LLMAttempt) (max_retries : Nat) :
    Nat → Nat → List Nat → LLMCallResult
  | 0, _, sleeps =>
      ⟨Except.error "Failed to get valid LLM response after all retries", sleeps⟩
  | fuel + 1, attempt, sleeps =>
      match behavior attempt with
      | LLMAttempt.noneResponse =>
          if attempt < max_retries - 1 then
            llmRetryLoop behavior max_retries fuel (attempt + 1) (sleeps ++ [2 ^ attempt])
          else ⟨Except.error "LLM returned None after all retries", sleeps⟩
      | LLMAttempt.noTextAttr =>
          if attempt < max_retries - 1 then
            llmRetryLoop behavior max_retries fuel (attempt + 1) (sleeps ++ [2 ^ attempt])
          else ⟨Except.error "Unexpected LLM response structure", sleeps⟩
      | LLMAttempt.parsedList items => ⟨Except.ok items, sleeps⟩
      | LLMAttempt.notAList =>
          if attempt < max_retries - 1 then
            llmRetryLoop behavior max_retries fuel (attempt + 1) (sleeps ++ [2 ^ attempt])
          else ⟨Except.ok [], sleeps⟩
      | LLMAttempt.parseError =>
          if attempt == max_retries - 1 then
            ⟨Except.error "Failed to parse LLM JSON response after all attempts", sleeps⟩
          else llmRetryLoop behavior max_retries fuel (attempt + 1) (sleeps ++ [2 ^ attempt])
      | LLMAttempt.exn =>
          if attempt == max_retries - 1 then
            ⟨Except.error "Failed to get LLM response after all attempts", sleeps⟩
          else llmRetryLoop behavior max_retries fuel (attempt + 1) (sleeps ++ [2 ^ attempt])

/-- The LLM response getter of memory_architecture.py with its retry logic
(default max_retries 3). -/
def get_llm_response (behavior : Nat → LLMAttempt) (max_retries : Nat := 3) :
    LLMCallResult :=
  llmRetryLoop behavior max_retries max_retries 0 []

end MindMate

namespace MindMate

/-! Node backend /chat route (src/r3f-virtual-girlfriend-backend/index.js). -/

/-- One element of the JSON array the Gemini prompt asks for. -/
structure GfMessage where
  text : String
  facialExpression : String
  animation : String
deriving Repr, DecidableEq

/-- Observable outcome of one POST /chat request to the Node backend: the HTTP
status, the error field of the JSON body (none for a success response), and
how many Gemini and text-to-speech calls were made while handling it. -/
structure NodeChatOutcome where
  status : Nat
  error : Option String
  geminiCalls : Nat
  ttsCalls : Nat
deriving Repr, DecidableEq

/-- JavaScript truthiness test used by the route's guard: req.body.message is
falsy when the field is absent or the empty string. -/
def jsFalsy : Option String → Bool
  | none => true
  | some s => s == ""

/-- The /chat POST handler of index.js: 400 when no message, 500 when keys are
missing, otherwise one Gemini call; on Gemini failure a 500, otherwise one
text-to-speech call per returned message and a 200. -/
def node_chat_post (message : Option String) (keysOk : Bool)
    (gemini : String → Except String (List GfMessage)) : NodeChatOutcome :=
  if jsFalsy message then
    { status := 400, error := some "No message provided", geminiCalls := 0, ttsCalls := 0 }
  else if !keysOk then
    { status := 500, error := some "API keys missing", geminiCalls := 0, ttsCalls := 0 }
  else
    match gemini (message.getD "") with
    | Except.error _ =>
        { status := 500, error := some "Gemini API error", geminiCalls := 1, ttsCalls := 0 }
    | Except.ok msgs =>
        { status := 200, error := none, geminiCalls := 1, ttsCalls := msgs.length }

end MindMate

namespace MindMate

/-! Helper lemmas about the unprocessed-message window and the marking loop. -/

lemma mem_fetchUnprocessedWindow {db : DB} {sid : String} {m : ChatMessage}
    (h : m ∈ fetchUnprocessedWindow db sid) :
    m ∈ db.chat_messages ∧ m.session_id = sid ∧ m.processed_into_memory = false := by
  have h1 : m ∈ orderByCreatedAsc (unprocessedSessionMessages db sid) :=
    List.take_subset _ _ h
  have h2 : m ∈ unprocessedSessionMessages db sid :=
    (List.perm_insertionSort createdLe _).mem_iff.mp h1
  have h3 := List.mem_filter.mp h2
  refine ⟨h3.1, ?_, ?_⟩
  · have := h3.2
    simp only [Bool.and_eq_true, beq_iff_eq] at this
    exact this.1
  · have := h3.2
    simp only [Bool.and_eq_true, beq_iff_eq] at this
    exact this.2

lemma length_fetchUnprocessedWindow (db : DB) (sid : String) :
    (fetchUnprocessedWindow db sid).length ≤ 20 := by
  unfold fetchUnprocessedWindow
  rw [List.length_take]
  exact Nat.min_le_left _ _

lemma sorted_fetchUnprocessedWindow (db : DB) (sid : String) :
    List.Sorted createdLe (fetchUnprocessedWindow db sid) :=
  List.Pairwise.sublist (List.take_sublist _ _)
    (List.sorted_insertionSort createdLe (unprocessedSessionMessages db sid))

lemma perm_fetchUnprocessedWindow {db : DB} {sid : String}
    (h : (unprocessedSessionMessages db sid).length ≤ 20) :
    (fetchUnprocessedWindow db sid).Perm (unprocessedSessionMessages db sid) := by
  have hlen : (orderByCreatedAsc (unprocessedSessionMessages db sid)).length ≤ 20 := by
    unfold orderByCreatedAsc
    rw [(List.perm_insertionSort createdLe _).length_eq]
    exact h
  unfold fetchUnprocessedWindow
  rw [List.take_of_length_le hlen]
  exact List.perm_insertionSort createdLe _

lemma markMsg_id (now : Nat) (m : ChatMessage) : (markMsg now m).id = m.id := rfl

lemma markMsg_idem (now : Nat) (m : ChatMessage) :
    markMsg now (markMsg now m) = markMsg now m := rfl

lemma setProcessed_getElem? (now i : Nat) (msgs : List ChatMessage) (k : Nat) :
    (setProcessed now i msgs)[k]? =
      (msgs[k]?).map (fun m => if m.id == i then markMsg now m else m) := by
  unfold setProcessed
  exact List.getElem?_map _ msgs k

lemma markProcessed_getElem? (now : Nat) (ids : List Nat) (msgs : List ChatMessage)
    (k : Nat) :
    (markProcessed now ids msgs)[k]? =
      (msgs[k]?).map (fun m => if m.id ∈ ids then markMsg now m else m) := by
  induction ids generalizing msgs with
  | nil =>
      cases h : msgs[k]? with
      | none => simp [markProcessed, List.foldl_nil, h]
      | some m => simp [markProcessed, List.foldl_nil, h]
  | cons i rest ih =>
      have hstep : markProcessed now (i :: rest) msgs =
          markProcessed now rest (setProcessed now i msgs) := rfl
      rw [hstep, ih, setProcessed_getElem?]
      cases h : msgs[k]? with
      | none => rfl
      | some m =>
          simp only [Option.map_some']
          by_cases hid : m.id = i
          · by_cases hrest : m.id ∈ rest
            · simp [hid, hrest, markMsg]
            · simp [hid, hrest, markMsg]
          · by_cases hrest : m.id ∈ rest
            · simp [hid, hrest]
            · simp [hid, hrest]

lemma setProcessed_length (now i : Nat) (msgs : List ChatMessage) :
    (setProcessed now i msgs).length = msgs.length := by
  unfold setProcessed
  exact List.length_map _ _

lemma markProcessed_length (now : Nat) (ids : List Nat) (msgs : List ChatMessage) :
    (markProcessed now ids msgs).length = msgs.length := by
  induction ids generalizing msgs with
  | nil => rfl
  | cons i rest ih =>
      have hstep : markProcessed now (i :: rest) msgs =
          markProcessed now rest (setProcessed now i msgs) := rfl
      rw [hstep, ih, setProcessed_length]

lemma mem_markProcessed {now : Nat} {ids : List Nat} {msgs : List ChatMessage}
    {m2 : ChatMessage} (h : m2 ∈ markProcessed now ids msgs) :
    ∃ m ∈ msgs, m2.id = m.id ∧ (m2 = m ∨ m2 = markMsg now m) := by
  rcases List.mem_iff_getElem?.mp h with ⟨k, hk⟩
  rw [markProcessed_getElem? now ids msgs k] at hk
  cases hmk : msgs[k]? with
  | none => rw [hmk] at hk; simp at hk
  | some m =>
      rw [hmk] at hk
      simp only [Option.map_some', Option.some.injEq] at hk
      refine ⟨m, List.mem_iff_getElem?.mpr ⟨k, hmk⟩, ?_, ?_⟩
      · by_cases hid : m.id ∈ ids
        · rw [if_pos hid] at hk
          rw [← hk]
          rfl
        · rw [if_neg hid] at hk
          rw [← hk]
      · by_cases hid : m.id ∈ ids
        · rw [if_pos hid] at hk
          right
          exact hk.symm
        · rw [if_neg hid] at hk
          left
          exact hk.symm

end MindMate

namespace MindMate

/-! Concrete data used by counterexamples and witnesses. -/

/-- An unprocessed chat message of session s with id and created_at i + 1. -/
def windowMsg (i : Nat) : ChatMessage :=
  ⟨i + 1, "s", "user", "hi", i + 1, false, none⟩

/-- A database whose session s holds 21 unprocessed messages. -/
def manyDB : DB :=
  ⟨(List.range 21).map windowMsg, [], []⟩

/-- A database whose session s holds 2 unprocessed messages. -/
def smallDB : DB :=
  ⟨[windowMsg 0, windowMsg 1], [], []⟩

/-- A database whose session s holds 20 messages. -/
def db20 : DB :=
  ⟨(List.range 20).map windowMsg, [], []⟩

/-- A memory system whose three extraction calls return fixed lists. -/
def sysConst : MemorySystem :=
  ⟨fun _ => "formatted", fun _ _ => ["p"], fun _ _ => ["sm"], fun _ _ => ["e"]⟩

/-- C1: after a handled /chat request, the memory-extraction background thread
is started exactly when the session's total chat-message count is positive and
divisible by 20. -/
theorem chat_trigger_iff_multiple_of_20 (db : DB) (sid : String) :
    chatMemoryExtractionStarted true db sid = true ↔
      0 < (sessionMessages db sid).length ∧ (sessionMessages db sid).length % 20 = 0 := by
  simp [chatMemoryExtractionStarted, get_session_message_count]

/-- C2 counterexample: with 21 unprocessed messages in the session, the window
fetched by an extraction run holds 20 messages (more than 15) and misses the
most recent unprocessed message, so it is not the last 15 unprocessed ones. -/
theorem window_not_last_15_counterexample :
    (fetchUnprocessedWindow manyDB "s").length = 20 ∧
    windowMsg 20 ∈ unprocessedSessionMessages manyDB "s" ∧
    windowMsg 20 ∉ fetchUnprocessedWindow manyDB "s" := by
  decide

/-- C2 (amended): the window an extraction run classifies consists only of
unprocessed messages of the session, holds at most 20 messages, is ascending in
created_at, and when the session has at most 20 unprocessed messages it is
exactly all of them: the earliest at most 20 unprocessed messages. -/
theorem window_first_20_unprocessed (db : DB) (sid : String) :
    (∀ m ∈ fetchUnprocessedWindow db sid,
        m ∈ db.chat_messages ∧ m.session_id = sid ∧ m.processed_into_memory = false) ∧
    (fetchUnprocessedWindow db sid).length ≤ 20 ∧
    List.Sorted createdLe (fetchUnprocessedWindow db sid) ∧
    ((unprocessedSessionMessages db sid).length ≤ 20 →
        (fetchUnprocessedWindow db sid).Perm (unprocessedSessionMessages db sid)) :=
  ⟨fun _ h => mem_fetchUnprocessedWindow h, length_fetchUnprocessedWindow db sid,
    sorted_fetchUnprocessedWindow db sid, fun h => perm_fetchUnprocessedWindow h⟩

/-- C2 witness: on a concrete database with two unprocessed messages the
fetched window is a permutation of all unprocessed session messages. -/
theorem window_first_20_unprocessed_witness :
    (fetchUnprocessedWindow smallDB "s").Perm (unprocessedSessionMessages smallDB "s") :=
  (window_first_20_unprocessed smallDB "s").2.2.2 (by decide)

/-- C5: the output of extract_all_memories_parallel carries one list per
category, each produced by its own dedicated extraction call, and the work is
dispatched as three distinct tasks on a pool of three workers. -/
theorem parallel_extraction_three_tasks (sys : MemorySystem) (input : MemoryInput) :
    (extract_all_memories_parallel sys input).memories.procedural =
        sys.extract_procedural_memory (sys.formatData input) input.data_type ∧
    (extract_all_memories_parallel sys input).memories.semantic =
        sys.extract_semantic_memory (sys.formatData input) input.data_type ∧
    (extract_all_memories_parallel sys input).memories.episodic =
        sys.extract_episodic_memory (sys.formatData input) input.data_type ∧
    extractionTaskTypes = ["procedural", "semantic", "episodic"] ∧
    extractionTaskTypes.Nodup ∧
    extractionTaskTypes.length = extractionMaxWorkers :=
  ⟨rfl, rfl, rfl, rfl, by decide, rfl⟩

/-- C9: in the output of extract_all_memories_parallel, total_memories is the
sum of the three per-category totals and each total is the length of the
corresponding list under the memories key. -/
theorem memory_summary_totals_consistent (sys : MemorySystem) (input : MemoryInput) :
    (extract_all_memories_parallel sys input).memory_summary.total_memories =
        (extract_all_memories_parallel sys input).memory_summary.total_procedural +
          (extract_all_memories_parallel sys input).memory_summary.total_semantic +
          (extract_all_memories_parallel sys input).memory_summary.total_episodic ∧
    (extract_all_memories_parallel sys input).memory_summary.total_procedural =
        (extract_all_memories_parallel sys input).memories.procedural.length ∧
    (extract_all_memories_parallel sys input).memory_summary.total_semantic =
        (extract_all_memories_parallel sys input).memories.semantic.length ∧
    (extract_all_memories_parallel sys input).memory_summary.total_episodic =
        (extract_all_memories_parallel sys input).memories.episodic.length :=
  ⟨rfl, rfl, rfl, rfl⟩

/-- C10: a POST /chat request without a message field gets status 400 with the
error body No message provided, and neither Gemini nor text-to-speech is
called. -/
theorem node_chat_no_message_400 (keysOk : Bool)
    (gemini : String → Except String (List GfMessage)) :
    node_chat_post none keysOk gemini =
      { status := 400, error := some "No message provided",
        geminiCalls := 0, ttsCalls := 0 } :=
  rfl

/-- The trigger state used by the interleaving race below. -/
def raceState : TriggerState := ⟨"u", "s", 20⟩

/-- A database whose session s holds 3 unprocessed messages. -/
def raceDB : DB :=
  ⟨[windowMsg 0, windowMsg 1, windowMsg 2], [], []⟩

/-- The final state of the schedule where both runs read the unprocessed
window before either commits. -/
def raceFinal : ConcState :=
  runSchedule sysConst 7 raceState ⟨raceDB, none, none⟩
    [ConcEvent.fetch1, ConcEvent.fetch2, ConcEvent.commit1, ConcEvent.commit2]

/-- C8: two overlapping background extraction runs of the same session can
fetch the same unprocessed-message window and both process it: under the
schedule fetch1 fetch2 commit1 commit2 both runs fetch the same nonempty
window and two memories rows with the same nonempty source_message_ids are
persisted. -/
theorem concurrent_runs_share_window :
    raceFinal.fetched1 = some [windowMsg 0, windowMsg 1, windowMsg 2] ∧
    raceFinal.fetched2 = raceFinal.fetched1 ∧
    raceFinal.db.memories.map (fun r => r.source_message_ids) = [[1, 2, 3], [1, 2, 3]] ∧
    ([1, 2, 3] : List Nat) ≠ [] := by
  decide

end MindMate

namespace MindMate

/-- A memories-table row of the given session carrying only procedural items. -/
def memRec (sid : String) (p : List String) : MemoryRecord :=
  ⟨"u", sid, "chat", p, [], [], ⟨p.length, 0, 0, p.length⟩, []⟩

/-- A database whose session s has two stored memories rows. -/
def memDB : DB :=
  ⟨[], [memRec "s" ["a"], memRec "s" ["b"]], []⟩

/-- C6 counterexample: with two memories rows stored for the session, a memory
of the earlier row is absent from the context folded into the first-stage
prompt, so not all previously stored memories of the session reach the prompt
context. -/
theorem analyst_context_drops_earlier_memories :
    memRec "s" ["a"] ∈ memDB.memories ∧
    (memRec "s" ["a"]).session_id = "s" ∧
    "a" ∈ (memRec "s" ["a"]).procedural_memories ∧
    "a" ∉ (analyst_prompt_context true memDB "u" "s").procedural ∧
    "a" ∉ (analyst_prompt_context true memDB "u" "s").semantic ∧
    "a" ∉ (analyst_prompt_context true memDB "u" "s").episodic := by
  decide

/-- C6 (amended): on every chat turn the prompt context of the first-stage call
is built from the memories table grouped by the three categories, but only from
the latest stored row of the session: the last matching row when one exists,
empty lists otherwise. -/
theorem analyst_context_latest_record (db : DB) (u sid : String) :
    (∀ rec, (db.memories.filter (fun r => r.session_id == sid)).getLast? = some rec →
        analyst_prompt_context true db u sid =
          ⟨rec.procedural_memories, rec.semantic_memories, rec.episodic_memories⟩) ∧
    ((db.memories.filter (fun r => r.session_id == sid)).getLast? = none →
        analyst_prompt_context true db u sid = ⟨[], [], []⟩) := by
  constructor
  · intro rec h
    simp [analyst_prompt_context, fetch_session_memories, h]
  · intro h
    simp [analyst_prompt_context, fetch_session_memories, h]

/-- C6 witness: on the concrete two-row database the context equals the three
lists of the latest row. -/
theorem analyst_context_latest_record_witness :
    analyst_prompt_context true memDB "u" "s" =
      ⟨(memRec "s" ["b"]).procedural_memories, (memRec "s" ["b"]).semantic_memories,
        (memRec "s" ["b"]).episodic_memories⟩ :=
  (analyst_context_latest_record memDB "u" "s").1 (memRec "s" ["b"]) (by decide)

/-- C7 counterexample: when every attempt parses valid JSON that is not a list,
all three attempts fail (the code itself retries on the first two), yet the
call returns an empty list instead of raising an error. -/
theorem llm_retry_nonlist_no_error :
    ((fun _ => LLMAttempt.notAList) 0).isFailure = true ∧
    ((fun _ => LLMAttempt.notAList) 1).isFailure = true ∧
    ((fun _ => LLMAttempt.notAList) 2).isFailure = true ∧
    get_llm_response (fun _ => LLMAttempt.notAList) = ⟨Except.ok [], [1, 2]⟩ := by
  decide

/-- C7 (amended): an LLM call during memory extraction is attempted up to 3
times, sleeping 2 ^ attempt seconds between attempts (1 then 2 seconds); when
all attempts fail, an error is raised after the final one, unless the final
attempt parsed valid JSON that is not a list, in which case an empty list is
returned without raising. -/
theorem llm_retry_three_attempts_backoff (behavior : Nat → LLMAttempt)
    (h0 : (behavior 0).isFailure = true)
    (h1 : (behavior 1).isFailure = true)
    (h2 : (behavior 2).isFailure = true) :
    (get_llm_response behavior).sleeps = [1, 2] ∧
    ((behavior 2 = LLMAttempt.notAList ∧
        (get_llm_response behavior).result = Except.ok []) ∨
     (behavior 2 ≠ LLMAttempt.notAList ∧
        (get_llm_response behavior).result.isOk = false)) := by
  cases hb0 : behavior 0 <;> rw [hb0] at h0 <;>
    first
    | exact Bool.noConfusion h0
    | cases hb1 : behavior 1 <;> rw [hb1] at h1 <;>
        first
        | exact Bool.noConfusion h1
        | cases hb2 : behavior 2 <;> rw [hb2] at h2 <;>
            first
            | exact Bool.noConfusion h2
            | simp [get_llm_response, llmRetryLoop, hb0, hb1, hb2,
                Except.isOk, Except.toBool]

/-- C7 witness: with every attempt raising an exception, the call sleeps 1 then
2 seconds and ends with a raised error. -/
theorem llm_retry_three_attempts_backoff_witness :
    (get_llm_response (fun _ => LLMAttempt.exn)).sleeps = [1, 2] ∧
    (get_llm_response (fun _ => LLMAttempt.exn)).result.isOk = false :=
  ⟨(llm_retry_three_attempts_backoff (fun _ => LLMAttempt.exn) rfl rfl rfl).1, by decide⟩

end MindMate

namespace MindMate

/-! Helper lemmas for the run-level theorems. -/

lemma mem_markProcessed_marked {now : Nat} {ids : List Nat} {msgs : List ChatMessage}
    {m2 : ChatMessage} (h : m2 ∈ markProcessed now ids msgs) (hid : m2.id ∈ ids) :
    m2.processed_into_memory = true := by
  rcases List.mem_iff_getElem?.mp h with ⟨k, hk⟩
  rw [markProcessed_getElem? now ids msgs k] at hk
  cases hmk : msgs[k]? with
  | none => rw [hmk] at hk; simp at hk
  | some m =>
      rw [hmk] at hk
      simp only [Option.map_some', Option.some.injEq] at hk
      by_cases hin : m.id ∈ ids
      · rw [if_pos hin] at hk
        rw [← hk]
        rfl
      · rw [if_neg hin] at hk
        rw [← hk] at hid
        exact absurd hid hin

lemma applyRun_cases (db : DB) (r : ExtractionRun) :
    applyRun db r = db ∨
    ∃ sys fetched, applyRun db r = commitExtraction sys r.now r.st fetched db := by
  unfold applyRun trigger_memory_extraction
  by_cases hc : r.credsOk
  · by_cases hemp : (fetchUnprocessedWindow db r.st.session_id).isEmpty
    · left
      simp [hc, hemp]
    · cases hsys : r.sys with
      | none =>
          left
          simp [hc, hemp, hsys]
      | some s =>
          by_cases hins : r.insertOk
          · right
            refine ⟨s, fetchUnprocessedWindow db r.st.session_id, ?_⟩
            simp [hc, hemp, hsys, hins]
          · left
            simp [hc, hemp, hsys, hins]
  · left
    simp [hc]

lemma applyRun_processed_invariant (db : DB) (r : ExtractionRun) (i : Nat)
    (hP : ∀ msg ∈ db.chat_messages, msg.id = i → msg.processed_into_memory = true) :
    ∀ msg2 ∈ (applyRun db r).chat_messages, msg2.id = i →
      msg2.processed_into_memory = true := by
  intro msg2 hmem hid
  rcases applyRun_cases db r with hcase | ⟨sys, fetched, hcase⟩
  · rw [hcase] at hmem
    exact hP msg2 hmem hid
  · rw [hcase] at hmem
    have hmem2 : msg2 ∈ markProcessed r.now (fetched.map (fun m => m.id)) db.chat_messages :=
      hmem
    rcases mem_markProcessed hmem2 with ⟨m, hm, hidm, hform⟩
    have hmp : m.processed_into_memory = true := hP m hm (hidm ▸ hid)
    rcases hform with hform | hform
    · rw [hform]
      exact hmp
    · rw [hform]
      rfl

lemma applyRuns_processed_invariant (db : DB) (rs : List ExtractionRun) (i : Nat)
    (hP : ∀ msg ∈ db.chat_messages, msg.id = i → msg.processed_into_memory = true) :
    ∀ msg2 ∈ (applyRuns db rs).chat_messages, msg2.id = i →
      msg2.processed_into_memory = true := by
  induction rs generalizing db with
  | nil => exact hP
  | cons r rest ih =>
      have hstep : applyRuns db (r :: rest) = applyRuns (applyRun db r) rest := rfl
      rw [hstep]
      exact ih (applyRun db r) (applyRun_processed_invariant db r i hP)

end MindMate

namespace MindMate

/-- C3: once a chat message's processed_into_memory flag is true, no later
extraction run of any session ever includes a message with its id in its
fetched window (ids are unique, the table's primary key), whatever runs
happen in between. -/
theorem processed_message_never_refetched (db : DB) (m : ChatMessage)
    (hnd : (db.chat_messages.map (fun x => x.id)).Nodup)
    (hm : m ∈ db.chat_messages) (hp : m.processed_into_memory = true)
    (rs : List ExtractionRun) (sid : String) :
    ∀ m2 ∈ fetchUnprocessedWindow (applyRuns db rs) sid, m2.id ≠ m.id := by
  intro m2 hmem heq
  have hP0 : ∀ msg ∈ db.chat_messages, msg.id = m.id →
      msg.processed_into_memory = true := by
    intro msg hmsg hid
    have hmm : msg = m := List.inj_on_of_nodup_map hnd hmsg hm hid
    rw [hmm]
    exact hp
  have hP := applyRuns_processed_invariant db rs m.id hP0
  have h3 := mem_fetchUnprocessedWindow hmem
  have htrue := hP m2 h3.1 heq
  rw [h3.2.2] at htrue
  exact Bool.noConfusion htrue

/-- A chat message of session s already processed into memories. -/
def procMsg : ChatMessage := ⟨1, "s", "user", "hi", 1, true, some 5⟩

/-- A database with one processed and one unprocessed message of session s. -/
def procDB : DB := ⟨[procMsg, windowMsg 1], [], []⟩

/-- C3 witness: after a run whose insert fails, the unprocessed message still
in the window does not carry the processed message's id. -/
theorem processed_message_never_refetched_witness :
    (windowMsg 1).id ≠ procMsg.id :=
  processed_message_never_refetched procDB procMsg (by decide) (by decide) (by decide)
    [⟨some sysConst, true, false, 9, raceState⟩] "s" (windowMsg 1) (by decide)

end MindMate

namespace MindMate

/-- C4: an extraction run with a nonempty fetched window persists one memories
row built from the extraction output with exactly the fetched message ids as
source_message_ids, then marks exactly the messages whose id was fetched (and
no others) as processed; when the memories insert fails, the run raises and the
database is unchanged. -/
theorem extraction_persists_then_marks (sys : MemorySystem) (db : DB)
    (st : TriggerState) (now : Nat)
    (hne : fetchUnprocessedWindow db st.session_id ≠ []) :
    (trigger_memory_extraction (some sys) true true now st db =
        Except.ok (commitExtraction sys now st (fetchUnprocessedWindow db st.session_id) db)) ∧
    ((commitExtraction sys now st (fetchUnprocessedWindow db st.session_id) db).memories =
        db.memories ++ [extractionRecord sys db st (fetchUnprocessedWindow db st.session_id)]) ∧
    ((extractionRecord sys db st (fetchUnprocessedWindow db st.session_id)).source_message_ids =
        (fetchUnprocessedWindow db st.session_id).map (fun m => m.id)) ∧
    ((extractionRecord sys db st (fetchUnprocessedWindow db st.session_id)).procedural_memories =
        (extract_all_memories_parallel sys
          (extractionInput db st (fetchUnprocessedWindow db st.session_id))).memories.procedural) ∧
    ((extractionRecord sys db st (fetchUnprocessedWindow db st.session_id)).semantic_memories =
        (extract_all_memories_parallel sys
          (extractionInput db st (fetchUnprocessedWindow db st.session_id))).memories.semantic) ∧
    ((extractionRecord sys db st (fetchUnprocessedWindow db st.session_id)).episodic_memories =
        (extract_all_memories_parallel sys
          (extractionInput db st (fetchUnprocessedWindow db st.session_id))).memories.episodic) ∧
    (∀ k : Nat,
        ((commitExtraction sys now st (fetchUnprocessedWindow db st.session_id) db).chat_messages)[k]? =
          (db.chat_messages[k]?).map (fun m =>
            if m.id ∈ (fetchUnprocessedWindow db st.session_id).map (fun m2 => m2.id)
            then markMsg now m else m)) ∧
    (trigger_memory_extraction (some sys) true false now st db =
        Except.error "Error in memory extraction: memories insert failed") ∧
    (applyRun db ⟨some sys, true, false, now, st⟩ = db) := by
  have hemp : (fetchUnprocessedWindow db st.session_id).isEmpty = false :=
    List.isEmpty_eq_false.mpr hne
  refine ⟨?_, rfl, rfl, rfl, rfl, rfl, ?_, ?_, ?_⟩
  · simp [trigger_memory_extraction, hemp]
  · intro k
    exact markProcessed_getElem? now ((fetchUnprocessedWindow db st.session_id).map
      (fun m2 => m2.id)) db.chat_messages k
  · simp [trigger_memory_extraction, hemp]
  · simp [applyRun, trigger_memory_extraction, hemp]

/-- C4 witness: on a concrete database with two unprocessed messages, the run
returns the committed state, and with a failing insert it raises leaving the
database unchanged. -/
theorem extraction_persists_then_marks_witness :
    trigger_memory_extraction (some sysConst) true true 9 raceState smallDB =
      Except.ok (commitExtraction sysConst 9 raceState
        (fetchUnprocessedWindow smallDB "s") smallDB) ∧
    trigger_memory_extraction (some sysConst) true false 9 raceState smallDB =
      Except.error "Error in memory extraction: memories insert failed" ∧
    applyRun smallDB ⟨some sysConst, true, false, 9, raceState⟩ = smallDB := by
  have h := extraction_persists_then_marks sysConst smallDB raceState 9 (by decide)
  exact ⟨h.1, h.2.2.2.2.2.2.2.1, h.2.2.2.2.2.2.2.2⟩

end MindMate
